import Mathlib

/-!
Verification of the weather-lookup tool `get_weather` from `agent/agent.py`.

The tool is a two-stage network pipeline: a geocoding request resolves a city
name to coordinates, a forecast request resolves coordinates to current
conditions, and a static table maps the numeric weather code to a Japanese
description.  We embed the Python function shallowly: JSON values become an
inductive type, each network call's outcome is supplied by an environment
value, Python exceptions become an explicit error type, and the function
returns `Except PyExn WeatherResult` together with the list of request URLs it
issued (so that "no forecast request was made" is expressible).
-/

/-- JSON values as Python's `json` module produces them.  Python distinguishes
`int` from `float`; a float is carried as its textual rendering (the string
`str(x)` produces), which is all the source ever does with one. -/
inductive Json where
  | null
  | bool (b : Bool)
  | int (i : Int)
  | float (s : String)
  | str (s : String)
  | arr (xs : List Json)
  | obj (kvs : List (String × Json))
deriving Repr

/-- Python type name of a JSON value, as it appears in error messages. -/
def pyTypeName : Json → String
  | .null => "NoneType"
  | .bool _ => "bool"
  | .int _ => "int"
  | .float _ => "float"
  | .str _ => "str"
  | .arr _ => "list"
  | .obj _ => "dict"

/-- Python `repr` of a JSON value (used for elements inside containers). -/
def pyRepr : Json → String
  | .null => "None"
  | .bool b => if b then "True" else "False"
  | .int i => toString i
  | .float s => s
  | .str s => "'" ++ s ++ "'"
  | .arr xs =>
      "[" ++ String.intercalate ", " (xs.attach.map (fun x => pyRepr x.1)) ++ "]"
  | .obj kvs =>
      "\x7b" ++
        String.intercalate ", "
          (kvs.attach.map (fun p => "'" ++ p.1.1 ++ "': " ++ pyRepr p.1.2)) ++
      "\x7d"
decreasing_by
  · simp_wf
    have h := List.sizeOf_lt_of_mem x.2
    omega
  · simp_wf
    obtain ⟨⟨k, v⟩, hp⟩ := p
    have h := List.sizeOf_lt_of_mem hp
    simp at h ⊢
    omega

/-- Python `str` of a JSON value, as an f-string interpolation renders it.
On scalars `str` and `repr` coincide except that a string is rendered
without quotes; containers render via `repr` of their elements. -/
def pyStr : Json → String
  | .null => "None"
  | .bool b => if b then "True" else "False"
  | .int i => toString i
  | .float s => s
  | .str s => s
  | .arr xs => pyRepr (.arr xs)
  | .obj kvs => pyRepr (.obj kvs)

/-- Python truthiness of a JSON value (`if not x` tests). -/
def Json.truthy : Json → Bool
  | .null => false
  | .bool b => b
  | .int i => i != 0
  | .float s => s != "0.0"
  | .str s => s != ""
  | .arr xs => !xs.isEmpty
  | .obj kvs => !kvs.isEmpty

/-- Python exceptions split the way the two `except` clauses at the end of
`get_weather` split them: `requests.RequestException` and everything else.
The string is `str(e)`. -/
inductive PyExn where
  | requestException (msg : String)
  | otherException (msg : String)
deriving Repr, DecidableEq

/-- Association-list lookup mirroring Python `dict` key lookup. -/
def Json.lookup (kvs : List (String × Json)) (k : String) : Option Json :=
  (kvs.find? (fun p => p.1 == k)).map Prod.snd

/-- Python `d.get(k, default)`: raises `AttributeError` when the receiver is
not a dict, otherwise returns the value or the default. -/
def dictGet (j : Json) (k : String) (dflt : Json) : Except PyExn Json :=
  match j with
  | .obj kvs => .ok ((Json.lookup kvs k).getD dflt)
  | _ => .error (.otherException
      ("'" ++ pyTypeName j ++ "' object has no attribute 'get'"))

/-- Python `d[k]` for a string key: `KeyError` when missing, `TypeError` when
the receiver is not a dict. -/
def subscriptKey (j : Json) (k : String) : Except PyExn Json :=
  match j with
  | .obj kvs =>
      match Json.lookup kvs k with
      | some v => .ok v
      | none => .error (.otherException ("'" ++ k ++ "'"))
  | _ => .error (.otherException
      ("'" ++ pyTypeName j ++ "' object is not subscriptable"))

/-- Python `x[0]`: first element of a list (or first character of a string);
`IndexError` when empty, `TypeError` otherwise. -/
def subscriptZero (j : Json) : Except PyExn Json :=
  match j with
  | .arr [] => .error (.otherException "list index out of range")
  | .arr (x :: _) => .ok x
  | .str s =>
      match s.data with
      | [] => .error (.otherException "string index out of range")
      | c :: _ => .ok (.str (String.mk [c]))
  | _ => .error (.otherException
      ("'" ++ pyTypeName j ++ "' object is not subscriptable"))

/-- Outcome of one `requests.get` call, supplied by the environment:
either the call itself raised, or a response arrived with a truthiness of
`res.ok`, the `str(e)` of the `HTTPError` that `raise_for_status` would raise,
and the outcome of `res.json()` (which may itself raise). -/
inductive FetchResult where
  | exn (e : PyExn)
  | resp (ok : Bool) (httpErrMsg : String) (body : Except PyExn Json)
deriving Repr

/-- The dict `get_weather` returns: a `status` discriminator and the two
optional payload fields (`none` models an absent key). -/
structure WeatherResult where
  status : String
  report : Option String
  error_message : Option String
deriving Repr, DecidableEq

/-- Upstream responses for one invocation: the geocoding call and the
forecast call. -/
structure Env where
  geo : FetchResult
  forecast : FetchResult
deriving Repr

/-- Geocoding URL exactly as the f-string at line 110 builds it: the city is
interpolated raw, with no encoding. -/
def geoUrl (city : String) : String :=
  "https://geocoding-api.open-meteo.com/v1/search?name=" ++ city

/-- Forecast URL exactly as the f-string at lines 121-125 builds it. -/
def weatherUrl (lat lon : Json) : String :=
  "https://api.open-meteo.com/v1/forecast?" ++
    "latitude=" ++ pyStr lat ++ "&longitude=" ++ pyStr lon ++
    "&current_weather=true&timezone=Asia/Tokyo"

/-- The static weather-code table `code_to_weather` from lines 135-153. -/
def code_to_weather : List (Int × String) := [
  (0, "快晴"), (1, "晴れ"), (2, "主に晴れ"), (3, "曇り"),
  (4, "薄曇り"), (5, "霞みがかった曇り"), (6, "曇り"), (7, "厚い曇り"),
  (8, "雨雲"), (9, "曇り（雷雲）"),
  (10, "霞"), (11, "薄霧"), (12, "霧"), (13, "雷（雨なし）"),
  (14, "弱い降水"), (15, "遠方で降水"),
  (18, "突風"), (19, "竜巻"), (20, "霧雨（過去1時間）"), (21, "雨（過去1時間）"),
  (22, "雪（過去1時間）"),
  (25, "にわか雨（過去1時間）"), (26, "にわか雪（過去1時間）"),
  (27, "ひょう（過去1時間）"), (29, "雷雨（過去1時間）"),
  (30, "砂嵐"), (31, "砂嵐"), (33, "軽い砂塵"), (34, "砂塵"), (35, "強い砂塵"),
  (40, "遠方の霧"), (41, "霧（パッチ状）"), (42, "霧（薄くなる）"),
  (43, "霧（濃くなる）"), (45, "霧"), (48, "霧氷"),
  (50, "弱い霧雨"), (51, "霧雨"), (53, "霧雨"), (55, "霧雨"),
  (56, "氷霧雨"), (57, "強い氷霧雨"),
  (58, "霧雨と雨"), (59, "強い霧雨と雨"),
  (60, "弱い雨"), (61, "雨"), (63, "雨"), (65, "雨"),
  (66, "冷たい雨"), (67, "強い冷たい雨"),
  (68, "みぞれ"), (69, "強いみぞれ"),
  (70, "弱い雪"), (71, "雪"), (73, "雪"), (75, "雪"),
  (76, "細かい雪"), (77, "霰"),
  (78, "雪結晶"), (79, "凍雨"),
  (80, "にわか雨"), (81, "にわか雨"), (82, "にわか雨"), (83, "にわか雨と雪"),
  (84, "強いにわか雨と雪"),
  (85, "にわか雪"), (86, "強いにわか雪"), (87, "にわかみぞれ"),
  (88, "強いにわかみぞれ"), (89, "にわかひょう"),
  (90, "強いにわかひょう"), (91, "弱い雷雨"), (92, "雷雨"),
  (93, "ひょうを伴う弱い雷雨"), (94, "ひょうを伴う雷雨"),
  (95, "雷雨"), (96, "激しい雷雨"), (97, "強い雷雨"),
  (98, "砂塵を伴う雷雨"), (99, "猛烈な雷雨")]

/-- Python `code_to_weather.get(code, ...)` finds a value only when `code` is
an integer key of the table (the dict's keys are all `int`s). -/
def codeLookup (code : Json) : Option String :=
  match code with
  | .int i => (code_to_weather.find? (fun p => p.1 == i)).map Prod.snd
  | _ => none

/-- The description chosen at line 154: table entry, or the fallback
embedding the raw code. -/
def descFor (code : Json) : String :=
  (codeLookup code).getD ("不明（コード" ++ pyStr code ++ "）")

/-- The report sentence composed at line 155. -/
def reportFor (desc : String) (temp : Json) : String :=
  "現在の天気は「" ++ desc ++ "」で、気温は摂氏" ++ pyStr temp ++ "度です。"

/-- The dict returned at lines 113-116 when geocoding finds nothing. -/
def cityNotFound (city : String) : WeatherResult :=
  { status := "error", report := none,
    error_message :=
      "申し訳ありません、都市名 '" ++ city ++ "' が見つかりませんでした。" }

/-- Body of the `try` block, lines 127-156: raise on transport failure,
non-success HTTP status or a body that fails to decode, then interpret the
payload with `.get` defaults and build the success dict. -/
def tryBody (f : FetchResult) : Except PyExn WeatherResult :=
  match f with
  | .exn e => .error e
  | .resp ok httpErrMsg body =>
      if !ok then .error (.requestException httpErrMsg)
      else
        match body with
        | .error e => .error e
        | .ok data => do
            let current ← dictGet data "current_weather" (.obj [])
            let temp ← dictGet current "temperature" .null
            let code ← dictGet current "weathercode" .null
            .ok { status := "success",
                  report := some (reportFor (descFor code) temp),
                  error_message := none }

/-- The two `except` clauses, lines 158-167: `requests.RequestException`
first, then the bare `Exception` catch-all. -/
def handleExn : PyExn → WeatherResult
  | .requestException m =>
      { status := "error", report := none,
        error_message := "Open-Meteoへのリクエストに失敗しました: " ++ m }
  | .otherException m =>
      { status := "error", report := none,
        error_message := "天気情報の取得に失敗しました: " ++ m }

/-- The whole forecast stage: `try` body with both handlers.  Total — no
exception escapes this stage. -/
def forecastStage (f : FetchResult) : WeatherResult :=
  match tryBody f with
  | .ok r => r
  | .error e => handleExn e

/-- Shallow embedding of `get_weather` (lines 96-167).  The second component
lists the request URLs issued, in order.  The geocoding stage sits outside
any `try`, so its exceptions escape as `.error`. -/
def get_weather (city : String) (env : Env) :
    Except PyExn WeatherResult × List String :=
  match env.geo with
  | .exn e => (.error e, [geoUrl city])
  | .resp ok _ body =>
      if !ok then (.ok (cityNotFound city), [geoUrl city])
      else
        match body with
        | .error e => (.error e, [geoUrl city])
        | .ok j =>
            match dictGet j "results" .null with
            | .error e => (.error e, [geoUrl city])
            | .ok results =>
                if !results.truthy then (.ok (cityNotFound city), [geoUrl city])
                else
                  match subscriptKey j "results" with
                  | .error e => (.error e, [geoUrl city])
                  | .ok results2 =>
                      match subscriptZero results2 with
                      | .error e => (.error e, [geoUrl city])
                      | .ok loc =>
                          match subscriptKey loc "latitude" with
                          | .error e => (.error e, [geoUrl city])
                          | .ok lat =>
                              match subscriptKey loc "longitude" with
                              | .error e => (.error e, [geoUrl city])
                              | .ok lon =>
                                  (.ok (forecastStage env.forecast),
                                   [geoUrl city, weatherUrl lat lon])

/-- Everything after the first occurrence of `sep` (the query part of a URL
for `sep` set to the question mark). -/
def afterChar (sep : Char) : List Char → List Char
  | [] => []
  | c :: rest => if c = sep then rest else afterChar sep rest

/-- Split a character list at every occurrence of `sep`. -/
def splitOnChar (sep : Char) : List Char → List (List Char)
  | [] => [[]]
  | c :: rest =>
      match splitOnChar sep rest with
      | [] => [[c]]
      | g :: gs => if c = sep then [] :: g :: gs else (c :: g) :: gs

/-- Split a character list at the first occurrence of `sep`, reporting
whether a separator was found. -/
def splitFirst (sep : Char) : List Char → List Char × Option (List Char)
  | [] => ([], none)
  | c :: rest =>
      if c = sep then ([], some rest)
      else
        let r := splitFirst sep rest
        (c :: r.1, r.2)

/-- Parse the query string of a URL into key-value pairs, the way an HTTP
server reads it: the part after the first question mark, split at ampersands,
each pair split at its first equals sign. -/
def queryParams (url : String) : List (String × String) :=
  (splitOnChar '&' (afterChar '?' url.data)).map
    (fun p =>
      let r := splitFirst '=' p
      (String.mk r.1, String.mk (r.2.getD [])))

/-- Value of query parameter `k` as the receiving server decodes it. -/
def paramValue (url k : String) : Option String :=
  ((queryParams url).find? (fun p => p.1 == k)).map Prod.snd

/-- Whether a character may appear raw in a URL query value. -/
def isUnreserved (c : Char) : Bool :=
  c.isAlphanum || c = '-' || c = '_' || c = '.' || c = '~'

/-- Uppercase hexadecimal digit. -/
def hexDigit (n : Nat) : Char :=
  if n < 10 then Char.ofNat (48 + n) else Char.ofNat (55 + n)

/-- Modelled from the spec: the "URL-safe encoding of the name" that the spec
says the tool performs on the city before transport (percent-encoding of
every character that is not URL-unreserved; ASCII inputs).  The source has no
such step, so this follows the spec's words, for comparison with `geoUrl`. -/
def urlEncodeSpec (s : String) : String :=
  String.mk (s.data.foldr
    (fun c acc =>
      if isUnreserved c then c :: acc
      else '%' :: hexDigit (c.toNat / 16) :: hexDigit (c.toNat % 16) :: acc)
    [])

/-- The result-shape invariant: status is one of the two discriminator
values, `report` is present exactly on success, `error_message` exactly on
error. -/
def wellFormed (r : WeatherResult) : Bool :=
  (r.status == "success" || r.status == "error") &&
  ((r.status == "success") == r.report.isSome) &&
  ((r.status == "error") == r.error_message.isSome)

/-- Whether an invocation returned a dict (`true`) or let an exception
escape (`false`). -/
def returnsNormally (r : Except PyExn WeatherResult × List String) : Bool :=
  match r.1 with
  | .ok _ => true
  | .error _ => false

theorem lookup_of_mem (l : List (Int × String)) (i : Int) (d : String)
    (hnd : (l.map Prod.fst).Nodup) (hmem : (i, d) ∈ l) :
    (l.find? (fun p => p.1 == i)).map Prod.snd = some d := by
  induction l with
  | nil => cases hmem
  | cons hd tl ih =>
      simp only [List.map_cons, List.nodup_cons] at hnd
      rcases List.mem_cons.mp hmem with heq | htl
      · subst heq
        rw [List.find?_cons_of_pos _ (by simp)]
        rfl
      · have hne : hd.1 ≠ i := by
          intro h
          exact hnd.1 (h ▸ List.mem_map_of_mem Prod.fst htl)
        rw [List.find?_cons_of_neg _ (by simpa using hne)]
        exact ih hnd.2 htl

theorem find?_of_not_mem (l : List (Int × String)) (i : Int)
    (h : i ∉ l.map Prod.fst) : l.find? (fun p => p.1 == i) = none := by
  induction l with
  | nil => rfl
  | cons hd tl ih =>
      simp only [List.map_cons, List.mem_cons] at h
      push_neg at h
      rw [List.find?_cons_of_neg _ (by simpa using fun hc => h.1 hc.symm)]
      exact ih h.2

theorem nodup_table_keys : (code_to_weather.map Prod.fst).Nodup := by decide

theorem afterChar_append (sep : Char) (l1 l2 : List Char) (h : sep ∉ l1) :
    afterChar sep (l1 ++ sep :: l2) = l2 := by
  induction l1 with
  | nil => simp [afterChar]
  | cons c t ih =>
      simp only [List.mem_cons] at h
      push_neg at h
      simp only [List.cons_append, afterChar, if_neg (Ne.symm h.1)]
      exact ih h.2

theorem splitOnChar_of_not_mem (sep : Char) (l : List Char) (h : sep ∉ l) :
    splitOnChar sep l = [l] := by
  induction l with
  | nil => rfl
  | cons c t ih =>
      simp only [List.mem_cons] at h
      push_neg at h
      rw [splitOnChar, ih h.2]
      simp [Ne.symm h.1]

theorem splitFirst_append (sep : Char) (l1 l2 : List Char) (h : sep ∉ l1) :
    splitFirst sep (l1 ++ sep :: l2) = (l1, some l2) := by
  induction l1 with
  | nil => simp [splitFirst]
  | cons c t ih =>
      simp only [List.mem_cons] at h
      push_neg at h
      simp only [List.cons_append, splitFirst, if_neg (Ne.symm h.1),
        List.append_eq, ih h.2]

theorem tryBody_ok (f : FetchResult) (r : WeatherResult) (h : tryBody f = .ok r) :
    ∃ s, r = { status := "success", report := some s, error_message := none } := by
  unfold tryBody at h
  rcases f with e | ⟨ok, m, body⟩
  · cases h
  · rcases ok with _ | _
    · simp at h
    · rcases body with e | data
      · simp at h
      · simp only [Bool.not_true, if_false] at h
        rcases data with _ | b | i | s | s | xs | kvs <;>
          simp [dictGet, bind, Except.bind] at h
        rcases hcur : (Json.lookup kvs "current_weather").getD (.obj []) with
          _ | b | i | s | s | xs | kvs2 <;> rw [hcur] at h <;>
            simp [dictGet, bind, Except.bind] at h
        exact ⟨_, h.symm⟩

theorem handleExn_shape (e : PyExn) :
    (handleExn e).status = "error" ∧ (handleExn e).report = none ∧
      ∃ s, (handleExn e).error_message = some s := by
  cases e <;> exact ⟨rfl, rfl, _, rfl⟩

theorem forecastStage_wf (f : FetchResult) : wellFormed (forecastStage f) = true := by
  unfold forecastStage
  rcases h : tryBody f with e | r
  · cases e <;> rfl
  · obtain ⟨s, rfl⟩ := tryBody_ok f r h
    rfl

theorem get_weather_ok (city : String) (env : Env) (r : WeatherResult)
    (h : (get_weather city env).1 = .ok r) :
    r = cityNotFound city ∨ r = forecastStage env.forecast := by
  unfold get_weather at h
  rcases env with ⟨geo, f⟩
  rcases geo with e | ⟨ok, m, body⟩
  · cases h
  · simp only at h
    repeat' split at h
    all_goals simp at h
    all_goals first
      | exact .inl h
      | exact .inl h.symm
      | exact .inr h
      | exact .inr h.symm

/-- C1: whenever the geocoding request yields a non-success HTTP status, or a
response whose `results` entry is absent or empty, `get_weather` returns the
city-not-found dict — `status = "error"`, no `report`, and an `error_message`
containing the original city text — and the only URL it requested is the
geocoding one, so no request reaches the forecast service. -/
theorem C1_geocode_failure_terminal (city : String) (env : Env)
    (ok : Bool) (m : String) (body : Except PyExn Json)
    (hgeo : env.geo = .resp ok m body)
    (hfail : ok = false ∨
      ∃ j results, body = .ok j ∧ dictGet j "results" .null = .ok results ∧
        results.truthy = false) :
    get_weather city env = (.ok (cityNotFound city), [geoUrl city]) ∧
    (cityNotFound city).status = "error" ∧
    (cityNotFound city).report = none ∧
    ∃ msg, (cityNotFound city).error_message = some msg ∧
      city.data <:+: msg.data := by
  refine ⟨?_, rfl, rfl, ?_⟩
  · unfold get_weather
    rw [hgeo]
    rcases hfail with hok | ⟨j, results, hb, hres, ht⟩
    · subst hok
      rfl
    · subst hb
      rcases ok with _ | _
      · rfl
      · simp [hres, ht]
  · refine ⟨_, rfl, ("申し訳ありません、都市名 '" : String).data,
      ("' が見つかりませんでした。" : String).data, ?_⟩
    simp [String.data_append]

/-- C1 witness: the spec's own scenario — city `doesnotexist123`, geocoding
returns an empty result list. -/
theorem C1_witness :
    get_weather "doesnotexist123"
        ⟨.resp true "" (.ok (.obj [("results", .arr [])])),
         .exn (.requestException "unused")⟩
      = (.ok (cityNotFound "doesnotexist123"), [geoUrl "doesnotexist123"]) ∧
    (cityNotFound "doesnotexist123").status = "error" ∧
    (cityNotFound "doesnotexist123").report = none ∧
    ∃ msg, (cityNotFound "doesnotexist123").error_message = some msg ∧
      ("doesnotexist123" : String).data <:+: msg.data :=
  C1_geocode_failure_terminal "doesnotexist123" _ true "" _ rfl
    (Or.inr ⟨_, _, rfl, rfl, rfl⟩)

/-- C2 counterexample: a timeout of the geocoding request itself is a
network-transport failure, yet the exception escapes `get_weather` (the
geocoding stage sits outside the `try` block), so the claim that no exception
escapes on any transport failure in either stage is false. -/
theorem C2_counterexample :
    (get_weather "tokyo"
        ⟨.exn (.requestException "HTTPSConnectionPool(host=geocoding-api.open-meteo.com, port=443): Read timed out."),
         .resp true "" (.ok (.obj []))⟩).1
      = .error (.requestException
          "HTTPSConnectionPool(host=geocoding-api.open-meteo.com, port=443): Read timed out.") :=
  rfl

/-- C2 amended: failures of the forecast stage never escape — whether the
function raises is determined by the geocoding outcome alone, and the
forecast stage always produces a dict with status success or error — while a
geocoding-stage exception propagates out of the function unchanged. -/
theorem C2_forecast_failures_contained (city : String)
    (geo f f' : FetchResult) (e : PyExn) :
    returnsNormally (get_weather city ⟨geo, f⟩)
        = returnsNormally (get_weather city ⟨geo, f'⟩) ∧
    ((forecastStage f).status = "success" ∨ (forecastStage f).status = "error") ∧
    (get_weather city ⟨.exn e, f⟩).1 = .error e := by
  refine ⟨?_, ?_, rfl⟩
  · rcases geo with e2 | ⟨ok, m, body⟩
    · rfl
    · unfold get_weather
      dsimp only
      repeat' split
      all_goals rfl
  · unfold forecastStage
    rcases htb : tryBody f with e2 | r
    · right
      cases e2 <;> rfl
    · obtain ⟨s, rfl⟩ := tryBody_ok f r htb
      left
      rfl

/-- C2 witness: concrete instance — geocoding succeeded; the forecast either
times out or returns, and in both cases a dict comes back. -/
theorem C2_witness :
    returnsNormally (get_weather "tokyo"
        ⟨.resp true "" (.ok (.obj [("results", .arr [
            .obj [("latitude", .float "35.68"), ("longitude", .float "139.69")]])])),
         .exn (.requestException "Read timed out.")⟩)
      = returnsNormally (get_weather "tokyo"
        ⟨.resp true "" (.ok (.obj [("results", .arr [
            .obj [("latitude", .float "35.68"), ("longitude", .float "139.69")]])])),
         .resp false "500 Server Error" (.ok .null)⟩) ∧
    ((forecastStage (.exn (.requestException "Read timed out."))).status = "success" ∨
      (forecastStage (.exn (.requestException "Read timed out."))).status = "error") ∧
    (get_weather "tokyo" ⟨.exn (.otherException "boom"),
        .exn (.requestException "Read timed out.")⟩).1
      = .error (.otherException "boom") :=
  C2_forecast_failures_contained "tokyo" _ _ _ _

/-- C3 counterexample: the city is interpolated raw into the URL, so the URL
built for `new york` is not the URL carrying the URL-encoded name, and for a
city containing a URL-reserved ampersand the `name` parameter the server
decodes is not the city at all. -/
theorem C3_counterexample :
    geoUrl "new york" ≠
      "https://geocoding-api.open-meteo.com/v1/search?name=" ++
        urlEncodeSpec "new york" ∧
    urlEncodeSpec "new york" = "new%20york" ∧
    paramValue (geoUrl "a&lang=ja") "name" = some "a" ∧
    some "a" ≠ some ("a&lang=ja" : String) := by
  exact ⟨by decide, by decide, by decide, by decide⟩

/-- C3 amended: the tool performs no encoding — the city is interpolated raw
— so the `name` parameter the server decodes equals the city exactly when the
city contains none of the separator characters a query parser is sensitive
to. -/
theorem C3_no_encoding_roundtrip (city : String)
    (h : ∀ c ∈ city.data, c ≠ '?' ∧ c ≠ '&' ∧ c ≠ '=') :
    paramValue (geoUrl city) "name" = some city := by
  have hbase : ("https://geocoding-api.open-meteo.com/v1/search?name=" : String).data
      = ("https://geocoding-api.open-meteo.com/v1/search" : String).data
        ++ '?' :: (("name" : String).data ++ ['=']) := by decide
  have hurl : (geoUrl city).data
      = ("https://geocoding-api.open-meteo.com/v1/search" : String).data
        ++ '?' :: (("name" : String).data ++ '=' :: city.data) := by
    show ("https://geocoding-api.open-meteo.com/v1/search?name=" ++ city).data = _
    rw [String.data_append, hbase]
    simp
  have hamp : ('&' : Char) ∉ ("name" : String).data ++ '=' :: city.data := by
    intro hmem
    rcases List.mem_append.mp hmem with h1 | h2
    · exact absurd h1 (by decide)
    · rcases List.mem_cons.mp h2 with h3 | h4
      · exact absurd h3 (by decide)
      · exact (h '&' h4).2.1 rfl
  unfold paramValue queryParams
  rw [hurl, afterChar_append _ _ _ (by decide),
    splitOnChar_of_not_mem _ _ hamp]
  simp only [List.map_cons, List.map_nil]
  rw [splitFirst_append '=' (['n', 'a', 'm', 'e']) city.data (by decide)]
  dsimp only
  rw [List.find?_cons_of_pos _ rfl]
  rfl

/-- C3 witness: a city with a space (and no separator characters) passes
through raw and round-trips as the `name` value. -/
theorem C3_witness :
    (∀ c ∈ ("new york" : String).data, c ≠ '?' ∧ c ≠ '&' ∧ c ≠ '=') ∧
    paramValue (geoUrl "new york") "name" = some "new york" :=
  ⟨by decide, C3_no_encoding_roundtrip "new york" (by decide)⟩

/-- C4 counterexample: a forecast response received with HTTP success whose
payload is an empty JSON object — no `current_weather`, hence no
`temperature` or `weathercode` — makes `get_weather` return a success
result embedding `None` placeholders, not the claimed error. -/
theorem C4_counterexample :
    (get_weather "tokyo"
        ⟨.resp true "" (.ok (.obj [("results", .arr [
            .obj [("latitude", .float "35.68"), ("longitude", .float "139.69")]])])),
         .resp true "" (.ok (.obj []))⟩).1
      = .ok { status := "success",
              report := some "現在の天気は「不明（コードNone）」で、気温は摂氏None度です。",
              error_message := none } :=
  rfl

/-- C4 amended: a forecast payload whose interpretation raises — the payload
is not a JSON object, so `.get` does not exist on it — yields the
`failed to retrieve weather` (天気情報の取得に失敗しました) error, while a
payload merely missing the `current_weather` / `temperature` / `weathercode`
fields yields a success report embedding `None` for the missing values. -/
theorem C4_interpretation_error_needs_exception (m : String) (j : Json)
    (hnotobj : ∀ kvs, j ≠ .obj kvs) :
    forecastStage (.resp true m (.ok j))
      = { status := "error", report := none,
          error_message := some ("天気情報の取得に失敗しました: "
            ++ ("'" ++ pyTypeName j ++ "' object has no attribute 'get'")) }
    ∧ ∀ m2, forecastStage (.resp true m2 (.ok (.obj [])))
        = { status := "success",
            report := some "現在の天気は「不明（コードNone）」で、気温は摂氏None度です。",
            error_message := none } := by
  refine ⟨?_, fun m2 => rfl⟩
  rcases j with _ | b | i | s | s | xs | kvs
  · rfl
  · rfl
  · rfl
  · rfl
  · rfl
  · rfl
  · exact absurd rfl (hnotobj kvs)

/-- C4 witness: a JSON array payload raises `AttributeError` during
interpretation and comes back as the catch-all error. -/
theorem C4_witness :
    forecastStage (.resp true "" (.ok (.arr [])))
      = { status := "error", report := none,
          error_message :=
            some "天気情報の取得に失敗しました: 'list' object has no attribute 'get'" } :=
  (C4_interpretation_error_needs_exception "" (.arr [])
    (fun _ hk => Json.noConfusion hk)).1

/-- C5: every forecast-stage transport failure — the request raising a
`RequestException` (timeout, connection error) or `raise_for_status` firing
on a non-success HTTP status — returns status error with the
`forecast request failed` (Open-Meteoへのリクエストに失敗しました) message,
and no such message ever coincides with a malformed-response catch-all
message, whatever the underlying causes. -/
theorem C5_transport_failure_message (m h : String) (body : Except PyExn Json) :
    forecastStage (.exn (.requestException m))
      = { status := "error", report := none,
          error_message := some ("Open-Meteoへのリクエストに失敗しました: " ++ m) }
    ∧ forecastStage (.resp false h body)
      = { status := "error", report := none,
          error_message := some ("Open-Meteoへのリクエストに失敗しました: " ++ h) }
    ∧ ∀ s t : String, "Open-Meteoへのリクエストに失敗しました: " ++ s
        ≠ "天気情報の取得に失敗しました: " ++ t := by
  refine ⟨rfl, rfl, fun s t heq => ?_⟩
  have hd := congrArg (fun x => x.data.head?) heq
  simp only [String.data_append] at hd
  rw [List.head?_append_of_ne_nil _ (by decide),
    List.head?_append_of_ne_nil _ (by decide)] at hd
  revert hd
  decide

/-- C5 witness: a concrete timeout and a concrete HTTP 500, with the two
message forms distinguishable at a concrete pair of causes. -/
theorem C5_witness :
    forecastStage (.exn (.requestException "Read timed out."))
      = { status := "error", report := none,
          error_message := some ("Open-Meteoへのリクエストに失敗しました: "
            ++ "Read timed out.") }
    ∧ forecastStage (.resp false "500 Server Error" (.ok .null))
      = { status := "error", report := none,
          error_message := some ("Open-Meteoへのリクエストに失敗しました: "
            ++ "500 Server Error") }
    ∧ "Open-Meteoへのリクエストに失敗しました: " ++ "cause"
        ≠ "天気情報の取得に失敗しました: " ++ "cause" := by
  have h := C5_transport_failure_message "Read timed out." "500 Server Error" (.ok .null)
  exact ⟨h.1, h.2.1, h.2.2 "cause" "cause"⟩

/-- C6: whenever geocoding returns a non-empty results list, the coordinates
put into the forecast URL are the latitude and longitude of the first element
— whatever the rest of the list is, so no local ranking or disambiguation
happens — and the forecast stage runs on the environment's forecast
response. -/
theorem C6_first_result_used (city m : String) (la lo loc : Json)
    (rest : List Json) (kvs : List (String × Json)) (f : FetchResult)
    (hres : Json.lookup kvs "results" = some (.arr (loc :: rest)))
    (hla : subscriptKey loc "latitude" = .ok la)
    (hlo : subscriptKey loc "longitude" = .ok lo) :
    get_weather city ⟨.resp true m (.ok (.obj kvs)), f⟩
      = (.ok (forecastStage f), [geoUrl city, weatherUrl la lo]) := by
  have h1 : dictGet (.obj kvs) "results" .null = .ok (.arr (loc :: rest)) := by
    simp [dictGet, hres]
  have h2 : subscriptKey (.obj kvs) "results" = .ok (.arr (loc :: rest)) := by
    simp [subscriptKey, hres]
  unfold get_weather
  simp [h1, h2, hla, hlo, Json.truthy, subscriptZero]

/-- C6 witness: a two-candidate result list; the URL is built from the first
candidate's coordinates, not the second's. -/
theorem C6_witness :
    get_weather "paris"
        ⟨.resp true "" (.ok (.obj [("results", .arr [
            .obj [("latitude", .float "48.85"), ("longitude", .float "2.35")],
            .obj [("latitude", .float "33.66"), ("longitude", .float "-95.55")]])])),
         .exn (.requestException "unused")⟩
      = (.ok (forecastStage (.exn (.requestException "unused"))),
         [geoUrl "paris", weatherUrl (.float "48.85") (.float "2.35")]) :=
  C6_first_result_used "paris" "" _ _ _ _ _ _ rfl rfl rfl

/-- C7: for a weathercode that is a key of the static table, the success
report embeds exactly the table's entry for it; in particular code 0 maps to
the clear-sky entry 快晴 and code 95 to the thunderstorm entry 雷雨. -/
theorem C7_table_entry_exact (i : Int) (d : String) (temp : Json) (m : String)
    (hmem : (i, d) ∈ code_to_weather) :
    forecastStage (.resp true m (.ok (.obj [("current_weather",
        .obj [("temperature", temp), ("weathercode", .int i)])])))
      = { status := "success", report := some (reportFor d temp),
          error_message := none }
    ∧ descFor (.int 0) = "快晴" ∧ descFor (.int 95) = "雷雨" := by
  have hdesc : descFor (.int i) = d := by
    have hl := lookup_of_mem code_to_weather i d nodup_table_keys hmem
    simp [descFor, codeLookup, hl]
  refine ⟨?_, rfl, rfl⟩
  have ht : tryBody (.resp true m (.ok (.obj [("current_weather",
      .obj [("temperature", temp), ("weathercode", .int i)])])))
      = .ok { status := "success",
              report := some (reportFor (descFor (.int i)) temp),
              error_message := none } := rfl
  unfold forecastStage
  rw [ht, hdesc]

/-- C7 witness: code 0 is in the table with entry 快晴 and the report embeds
it verbatim. -/
theorem C7_witness :
    ((0 : Int), "快晴") ∈ code_to_weather ∧
    forecastStage (.resp true "" (.ok (.obj [("current_weather",
        .obj [("temperature", .float "21.5"), ("weathercode", .int 0)])])))
      = { status := "success", report := some (reportFor "快晴" (.float "21.5")),
          error_message := none } :=
  ⟨by decide,
   (C7_table_entry_exact 0 "快晴" (.float "21.5") "" (by decide)).1⟩

/-- C8: a weathercode that is not a key of the table still yields a success
result; the description is the fallback embedding the raw numeric code, never
an error outcome. -/
theorem C8_unknown_code_fallback (i : Int) (temp : Json) (m : String)
    (hnot : i ∉ code_to_weather.map Prod.fst) :
    forecastStage (.resp true m (.ok (.obj [("current_weather",
        .obj [("temperature", temp), ("weathercode", .int i)])])))
      = { status := "success",
          report := some (reportFor ("不明（コード" ++ toString i ++ "）") temp),
          error_message := none } := by
  have hdesc : descFor (.int i) = "不明（コード" ++ toString i ++ "）" := by
    have hl := find?_of_not_mem code_to_weather i hnot
    simp [descFor, codeLookup, hl, pyStr]
  have ht : tryBody (.resp true m (.ok (.obj [("current_weather",
      .obj [("temperature", temp), ("weathercode", .int i)])])))
      = .ok { status := "success",
              report := some (reportFor (descFor (.int i)) temp),
              error_message := none } := rfl
  unfold forecastStage
  rw [ht, hdesc]

/-- C8 witness: the spec's example codes 16 and 100 are not in the table and
both produce success results with the fallback description. -/
theorem C8_witness :
    forecastStage (.resp true "" (.ok (.obj [("current_weather",
        .obj [("temperature", .float "21.5"), ("weathercode", .int 16)])])))
      = { status := "success",
          report := some (reportFor ("不明（コード" ++ toString (16 : Int) ++ "）")
            (.float "21.5")),
          error_message := none }
    ∧ forecastStage (.resp true "" (.ok (.obj [("current_weather",
        .obj [("temperature", .float "21.5"), ("weathercode", .int 100)])])))
      = { status := "success",
          report := some (reportFor ("不明（コード" ++ toString (100 : Int) ++ "）")
            (.float "21.5")),
          error_message := none } :=
  ⟨C8_unknown_code_fallback 16 (.float "21.5") "" (by decide),
   C8_unknown_code_fallback 100 (.float "21.5") "" (by decide)⟩

/-- C9: with a successful, well-formed geocoding response and a successful,
well-formed forecast response, `get_weather` returns a success result whose
report contains both the weather description and the temperature text. -/
theorem C9_success_report (city m m2 : String) (kvs : List (String × Json))
    (loc la lo temp code : Json) (rest : List Json)
    (hres : Json.lookup kvs "results" = some (.arr (loc :: rest)))
    (hla : subscriptKey loc "latitude" = .ok la)
    (hlo : subscriptKey loc "longitude" = .ok lo) :
    (get_weather city ⟨.resp true m (.ok (.obj kvs)),
        .resp true m2 (.ok (.obj [("current_weather",
          .obj [("temperature", temp), ("weathercode", code)])]))⟩).1
      = .ok { status := "success",
              report := some (reportFor (descFor code) temp),
              error_message := none }
    ∧ (descFor code).data <:+: (reportFor (descFor code) temp).data
    ∧ (pyStr temp).data <:+: (reportFor (descFor code) temp).data := by
  refine ⟨?_, ?_, ?_⟩
  · have h1 : dictGet (.obj kvs) "results" .null = .ok (.arr (loc :: rest)) := by
      simp [dictGet, hres]
    have h2 : subscriptKey (.obj kvs) "results" = .ok (.arr (loc :: rest)) := by
      simp [subscriptKey, hres]
    unfold get_weather
    simp [h1, h2, hla, hlo, Json.truthy, subscriptZero]
    rfl
  · refine ⟨("現在の天気は「" : String).data,
      ("」で、気温は摂氏" ++ pyStr temp ++ "度です。" : String).data, ?_⟩
    simp [reportFor, String.data_append]
  · refine ⟨("現在の天気は「" ++ descFor code ++ "」で、気温は摂氏" : String).data,
      ("度です。" : String).data, ?_⟩
    simp [reportFor, String.data_append]

/-- C9 witness: the spec's tokyo scenario — one geocoding candidate, forecast
temperature 21.5 with code 1 — produces the success report, and both the
code-1 description 晴れ and the text 21.5 occur in it. -/
theorem C9_witness :
    (get_weather "tokyo"
        ⟨.resp true "" (.ok (.obj [("results", .arr [
            .obj [("latitude", .float "35.68"), ("longitude", .float "139.69")]])])),
         .resp true "" (.ok (.obj [("current_weather",
           .obj [("temperature", .float "21.5"), ("weathercode", .int 1)])]))⟩).1
      = .ok { status := "success",
              report := some (reportFor (descFor (.int 1)) (.float "21.5")),
              error_message := none }
    ∧ (descFor (.int 1)).data <:+: (reportFor (descFor (.int 1)) (.float "21.5")).data
    ∧ (pyStr (.float "21.5")).data
        <:+: (reportFor (descFor (.int 1)) (.float "21.5")).data :=
  C9_success_report "tokyo" "" "" _ _ _ _ (.float "21.5") (.int 1) _ rfl rfl rfl

/-- C10: every dict that `get_weather` actually returns satisfies the shape
invariant — its status is `success` or `error`, `report` is present exactly
when the status is `success`, and `error_message` exactly when it is
`error`. -/
theorem C10_result_shape (city : String) (env : Env) (r : WeatherResult)
    (h : (get_weather city env).1 = .ok r) : wellFormed r = true := by
  rcases get_weather_ok city env r h with hr | hr
  · subst hr
    rfl
  · subst hr
    exact forecastStage_wf env.forecast

/-- C10 witness: a not-found result is returned and satisfies the shape
invariant. -/
theorem C10_witness :
    (get_weather "doesnotexist123"
        ⟨.resp false "404 Client Error" (.ok .null),
         .exn (.requestException "unused")⟩).1
      = .ok (cityNotFound "doesnotexist123")
    ∧ wellFormed (cityNotFound "doesnotexist123") = true :=
  ⟨rfl, C10_result_shape "doesnotexist123"
      ⟨.resp false "404 Client Error" (.ok .null), .exn (.requestException "unused")⟩
      (cityNotFound "doesnotexist123") rfl⟩
